import Mathlib

/-
  Shallow embedding of the SignalForensics decryptor (src/decrypt_signal.py).

  Byte strings are modelled as `List Nat` (one entry per byte).  The external
  cryptographic primitives (modules.crypto: aes_256_gcm_decrypt,
  aes_256_cbc_decrypt, hash_sha256), the OS unprotect primitives
  (modules.windows / modules.manual) and the stdlib MIME helper
  (mimetypes.guess_extension) are repository or library code outside src/ and
  appear as function parameters of the embedding; the control flow, slicing
  and error handling around them are translated from the source.
-/

namespace SignalForensics

/-- Python exception classes that can escape the embedded code paths.
`malformedInputFile` is MalformedInputFileError (decrypt_signal.py line 30),
`malformedKey` is modules.shared_utils.MalformedKeyError, `valueError` stands
for an uncaught built-in decode failure (ValueError from bytes.fromhex, or
UnicodeDecodeError from bytes.decode, neither of which is caught by the
source), `cryptoError` is an authentication failure escaping
aes_256_gcm_decrypt, and `unprotectError` is a failure escaping the OS
unprotect primitive. -/
inductive Err
  | malformedInputFile
  | malformedKey
  | valueError
  | cryptoError
  | unprotectError
deriving DecidableEq

/-- The four execution modes accepted by parse_mode (decrypt_signal.py
lines 62-76). -/
inductive Mode
  | auto
  | aux
  | key
  | manual
deriving DecidableEq

/-- uuid.UUID("df9d8cd0-1501-11d1-8c7a-00c04fc297eb").bytes_le
(decrypt_signal.py line 25): the first three groups are little-endian. -/
def dpapiBlobGuidBytesLe : List Nat :=
  [0xd0, 0x8c, 0x9d, 0xdf, 0x01, 0x15, 0xd1, 0x11,
   0x8c, 0x7a, 0x00, 0xc0, 0x4f, 0xc2, 0x97, 0xeb]

/-- AUX_KEY_PREFIX = "DPAPI" encoded as bytes (decrypt_signal.py line 21);
the source only ever uses its length (5). -/
def auxKeyMagicBytes : List Nat := [68, 80, 65, 80, 73]

/-- DEC_KEY_PREFIX = "v10" encoded as UTF-8 (decrypt_signal.py line 23). -/
def v10Bytes : List Nat := [118, 49, 48]

/-- Value of one ASCII hex digit byte, as accepted by bytes.fromhex. -/
def hexVal? (b : Nat) : Option Nat :=
  if 48 ≤ b ∧ b ≤ 57 then some (b - 48)
  else if 97 ≤ b ∧ b ≤ 102 then some (b - 87)
  else if 65 ≤ b ∧ b ≤ 70 then some (b - 55)
  else none

/-- Model of Python bytes.fromhex on a sequence of character codes: pairs of
hex digits, with optional ASCII spaces between pairs; any other shape fails
(in Python: ValueError). -/
def pyFromhex : List Nat → Option (List Nat)
  | [] => some []
  | 32 :: rest => pyFromhex rest
  | a :: b :: rest => do
      let x ← hexVal? a
      let y ← hexVal? b
      let tl ← pyFromhex rest
      pure ((16 * x + y) :: tl)
  | [_] => none

/-- Character codes of a Lean string, used to feed string data to the
bytes.fromhex model. -/
def strBytes (s : String) : List Nat := s.data.map Char.toNat

/-- Embeds fetch_aux_key (decrypt_signal.py lines 227-267).

The JSON loading of the Local State file and the base64 decoding of its
os_crypt.encrypted_key field (lines 232-251, Python stdlib I/O) happen before
the logic embedded here; `decodedKey` is the base64-decoded field value.  In
"aux" mode the source returns the user-supplied key unchanged
(fetch_key_from_args, here `argsKey`).  Otherwise it drops the first
5 decoded bytes (len(AUX_KEY_PREFIX), line 247) without ever comparing them
to "DPAPI", checks the 16 bytes at offsets 4..19 of the remainder against the
DPAPI blob GUID (line 254), and dispatches to the OS unprotect primitive
(modules.windows / modules.manual, passed here as `unprotectDpapi` /
`unprotectManual`); in "key" mode it falls through to `return None`
(line 267). -/
def fetch_aux_key (mode : Mode) (argsKey : List Nat)
    (unprotectDpapi : List Nat → Option (List Nat))
    (unprotectManual : List Nat → Option (List Nat))
    (decodedKey : List Nat) : Except Err (Option (List Nat)) :=
  if mode = Mode.aux then Except.ok (some argsKey)
  else
    let ek := decodedKey.drop 5
    if (ek.drop 4).take 16 ≠ dpapiBlobGuidBytesLe then Except.error Err.malformedKey
    else
      match mode with
      | Mode.auto =>
          match unprotectDpapi ek with
          | some k => Except.ok (some k)
          | none => Except.error Err.unprotectError
      | Mode.manual =>
          match unprotectManual ek with
          | some k => Except.ok (some k)
          | none => Except.error Err.unprotectError
      | _ => Except.ok none

/-- Post-processing of the GCM result in fetch_decryption_key
(decrypt_signal.py lines 304-306): an authentication failure escapes as a
crypto error; otherwise the plaintext is decoded as UTF-8 and fed to
bytes.fromhex, whose failure escapes as an uncaught ValueError (or
UnicodeDecodeError); a successful decode is returned with no further check. -/
def gcmPost (o : Option (List Nat)) : Except Err (List Nat) :=
  match o with
  | none => Except.error Err.cryptoError
  | some dec =>
      match pyFromhex dec with
      | none => Except.error Err.valueError
      | some k => Except.ok k

/-- Embeds fetch_decryption_key (decrypt_signal.py lines 270-306).

The JSON loading of the config file (lines 271-275) happens before the logic
embedded here; `encryptedKey` is the "encryptedKey" field (`none` when the
field is missing; the empty string is also treated as missing by the
truthiness test on line 279).  `gcm` is modules.crypto.aes_256_gcm_decrypt
(aux_key, nonce, ciphertext, tag), returning `none` when authentication
fails. -/
def fetch_decryption_key
    (gcm : List Nat → List Nat → List Nat → List Nat → Option (List Nat))
    (encryptedKey : Option String) (auxKey : List Nat) : Except Err (List Nat) :=
  match encryptedKey with
  | none => Except.error Err.malformedInputFile
  | some ek =>
      if ek = "" then Except.error Err.malformedInputFile
      else
        match pyFromhex (strBytes ek) with
        | none => Except.error Err.malformedKey
        | some key =>
            if key.take 3 ≠ v10Bytes then Except.error Err.malformedKey
            else
              let key1 := key.drop 3
              let nonce := key1.take 12
              let gcmTag := key1.drop (key1.length - 16)
              let ct := (key1.drop 12).take (key1.length - 28)
              gcmPost (gcm auxKey nonce ct gcmTag)

/-- Embeds the auxiliary-key length check in main (decrypt_signal.py
lines 464-466): `if not aux_key or len(aux_key) != 32: raise
MalformedKeyError`.  A `none` models fetch_aux_key returning None; the
Python truthiness test on empty bytes is subsumed by the length test. -/
def main_aux_key_check (auxKey : Option (List Nat)) : Except Err (List Nat) :=
  match auxKey with
  | none => Except.error Err.malformedKey
  | some k => if k.length ≠ 32 then Except.error Err.malformedKey else Except.ok k

/-- One attachment record from the message metadata JSON (decrypt_signal.py
lines 376-382, 400, 406).  Fields that the source obtains through fallible
stdlib decoding are carried as the decode result: `none` models the decode
raising (base64.b64decode for localKey/iv, int() for size, bytes.fromhex for
plaintextHash — each raised exception is caught by the per-item handler).
`contentType` is `none` when the "contentType" key is absent (line 406, a
presence test, not an exception). -/
structure AttRecord where
  path : String
  localKey : Option (List Nat)
  iv : Option (List Nat)
  size : Option Nat
  plaintextHash : Option (List Nat)
  contentType : Option String

/-- External collaborators of export_attachments:
modules.crypto.aes_256_cbc_decrypt (returning `none` when the library call
raises), modules.crypto.hash_sha256, and mimetypes.guess_extension (which
returns None for an unknown MIME type). -/
structure Env where
  aes_256_cbc_decrypt : List Nat → List Nat → List Nat → Option (List Nat)
  hash_sha256 : List Nat → List Nat
  guess_extension : String → Option String

/-- Embeds mime_to_extension (decrypt_signal.py lines 434-436). -/
def mime_to_extension (env : Env) (mimeType : String) : Option String :=
  env.guess_extension mimeType

/-- Python f-string rendering of an optional string: f"{None}" is the
four-character string "None" (decrypt_signal.py line 407). -/
def pyFormatOpt : Option String → String
  | none => "None"
  | some s => s

/-- The output file path of one attachment, relative to the attachments
directory (decrypt_signal.py lines 405-407): the relative storage path, plus
the f-string rendering of mime_to_extension when "contentType" is present. -/
def attFilePath (env : Env) (att : AttRecord) : String :=
  att.path ++
    match att.contentType with
    | some ct => pyFormatOpt (mime_to_extension env ct)
    | none => ""

/-- Outcome of processing one attachment inside the per-item try block
(decrypt_signal.py lines 378-418): either a file write (with the output path
relative to the attachments directory, the written bytes, and whether the
SHA-256 integrity comparison failed), or the explicit missing-ciphertext
branch (lines 388-391), or a caught exception (lines 416-418). -/
inductive ItemOutcome
  | written (filePath : String) (data : List Nat) (integrityFailed : Bool)
  | notFound
  | exc
deriving DecidableEq

/-- Embeds the body of the per-attachment try block in export_attachments
(decrypt_signal.py lines 378-415), in source order: decode localKey and take
its first 32 bytes (line 380), decode iv (line 381), convert size (line 382),
test for the ciphertext file (line 388, `srcFs` maps the relative path to the
file bytes under attachments.noindex), read and CBC-decrypt it (lines
394-398), drop the first 16 bytes of the decrypted buffer and keep the next
`size` bytes (line 399, Python slice [16 : 16 + size]), hex-decode the
declared hash and compare with the SHA-256 of the result (line 400), and
build the output path (lines 405-407).  Directory creation and the file
write itself (lines 410-413) are modelled as total. -/
def processAttachment (env : Env) (srcFs : String → Option (List Nat))
    (att : AttRecord) : ItemOutcome :=
  match att.localKey with
  | none => ItemOutcome.exc
  | some lk =>
    let key := lk.take 32
    match att.iv with
    | none => ItemOutcome.exc
    | some nonce =>
      match att.size with
      | none => ItemOutcome.exc
      | some size =>
        match srcFs att.path with
        | none => ItemOutcome.notFound
        | some encData =>
          match env.aes_256_cbc_decrypt key nonce encData with
          | none => ItemOutcome.exc
          | some dec =>
            let attachmentData := (dec.drop 16).take size
            match att.plaintextHash with
            | none => ItemOutcome.exc
            | some ph =>
              ItemOutcome.written (attFilePath env att) attachmentData
                (ph != env.hash_sha256 attachmentData)

/-- The bytes written for an attachment, when its processing reaches the
file write. -/
def writtenData? : ItemOutcome → Option (List Nat)
  | ItemOutcome.written _ d _ => some d
  | _ => none

/-- The output path (relative to the attachments directory) for an
attachment, when its processing reaches the file write. -/
def writtenPath? : ItemOutcome → Option String
  | ItemOutcome.written p _ _ => some p
  | _ => none

/-- Whether the item reached the file write and the counts increment
(decrypt_signal.py lines 412-415). -/
def isWritten : ItemOutcome → Bool
  | ItemOutcome.written _ _ _ => true
  | _ => false

/-- Whether the item incremented the error counter: the explicit
missing-file branch (decrypt_signal.py line 390) or the per-item exception
handler (line 417). -/
def isErrored : ItemOutcome → Bool
  | ItemOutcome.notFound => true
  | ItemOutcome.exc => true
  | _ => false

/-- Whether the item incremented the integrity_error counter
(decrypt_signal.py line 402). -/
def isIntegrityFailed : ItemOutcome → Bool
  | ItemOutcome.written _ _ b => b
  | _ => false

/-- The three counters of export_attachments (decrypt_signal.py lines
368-370) together with the output directory contents, modelled as a map from
paths relative to the output directory to file bytes. -/
structure BatchState where
  counts : Nat
  error : Nat
  integrity_error : Nat
  outFs : String → Option (List Nat)

/-- Opening a path with mode "wb" and writing `d` replaces any previous
content at that path (decrypt_signal.py lines 412-413). -/
def writeFile (fs : String → Option (List Nat)) (p : String) (d : List Nat) :
    String → Option (List Nat) :=
  fun q => if q = p then some d else fs q

/-- One iteration of the attachment loop (decrypt_signal.py lines 376-418):
a caught exception or a missing ciphertext file increments error and moves
on; a processed item increments integrity_error when the hash comparison
failed (line 402), writes the output file under the attachments
subdirectory (lines 410-413), and increments counts (line 415). -/
def exportStep (env : Env) (srcFs : String → Option (List Nat))
    (st : BatchState) (att : AttRecord) : BatchState :=
  match processAttachment env srcFs att with
  | ItemOutcome.notFound => { st with error := st.error + 1 }
  | ItemOutcome.exc => { st with error := st.error + 1 }
  | ItemOutcome.written p d intf =>
      { counts := st.counts + 1
        error := st.error
        integrity_error :=
          if intf then st.integrity_error + 1 else st.integrity_error
        outFs := writeFile st.outFs ("attachments/" ++ p) d }

/-- Embeds export_attachments (decrypt_signal.py lines 350-424) over the
flattened list of attachment records found in the message metadata, starting
from zeroed counters (lines 368-370) and the current output directory
contents. -/
def export_attachments (env : Env) (srcFs : String → Option (List Nat))
    (atts : List AttRecord) (initFs : String → Option (List Nat)) :
    BatchState :=
  atts.foldl (exportStep env srcFs) ⟨0, 0, 0, initFs⟩

/-- The (path, bytes) pairs written by a run of export_attachments, in loop
order; they depend only on the inputs, not on the accumulated state. -/
def writesOf (env : Env) (srcFs : String → Option (List Nat))
    (atts : List AttRecord) : List (String × List Nat) :=
  atts.filterMap fun a =>
    match processAttachment env srcFs a with
    | ItemOutcome.written p d _ => some ("attachments/" ++ p, d)
    | _ => none

/-- Apply a list of file writes, in order, to an output directory. -/
def applyWrites (ws : List (String × List Nat))
    (fs : String → Option (List Nat)) : String → Option (List Nat) :=
  ws.foldl (fun f w => writeFile f w.1 w.2) fs

/-- The last write to path `p` in a list of writes, if any. -/
def lastWrite? (ws : List (String × List Nat)) (p : String) :
    Option (List Nat) :=
  ws.foldl (fun acc w => if w.1 = p then some w.2 else acc) none

/-- Embeds the unencrypted-database export step of open_sqlcipher_db
(decrypt_signal.py lines 335-345): when the skip flag is unset, the export
writes to "db.sqlite" in the output directory unless such a file already
exists, in which case the output directory is left untouched.  The exported
bytes themselves come from the delegated sqlcipher_export call and are a
parameter. -/
def db_export (skipDatabase : Bool) (outFs : String → Option (List Nat))
    (exported : List Nat) : String → Option (List Nat) :=
  if skipDatabase then outFs
  else
    match outFs "db.sqlite" with
    | some _ => outFs
    | none => writeFile outFs "db.sqlite" exported

/-- The per-attachment plaintext as the specification words it: CBC-decrypt
the ciphertext under the key formed from the first 32 bytes of the decoded
localKey and the decoded iv, drop the first 16 bytes of the decrypted
buffer, keep exactly the next `size` bytes.  Compared against the bytes the
embedded export loop writes. -/
def specAttachmentPlaintext (env : Env) (localKeyDecoded ivDecoded encData : List Nat)
    (size : Nat) : Option (List Nat) :=
  (env.aes_256_cbc_decrypt (localKeyDecoded.take 32) ivDecoded encData).map
    fun dec => (dec.drop 16).take size

/-- Concrete environment for evaluating the export pipeline: CBC decryption
is the identity on the ciphertext, SHA-256 is the constant empty digest, and
no MIME type has a known extension. -/
def env0 : Env :=
  { aes_256_cbc_decrypt := fun _ _ d => some d
    hash_sha256 := fun _ => []
    guess_extension := fun _ => none }

/-- Concrete source directory holding ciphertext files at paths "a" and "c"
but not "b". -/
def src0 : String → Option (List Nat) := fun p =>
  if p = "a" then some (List.replicate 20 1)
  else if p = "c" then some (List.replicate 20 2)
  else none

/-- A fully processable record whose ciphertext is at path "a". -/
def attA : AttRecord :=
  ⟨"a", some (List.replicate 32 0), some [], some 4, some [], none⟩

/-- A record whose ciphertext file (path "b") is missing from src0. -/
def attB : AttRecord :=
  ⟨"b", some (List.replicate 32 0), some [], some 4, some [], none⟩

/-- A fully processable record whose ciphertext is at path "c". -/
def attC : AttRecord :=
  ⟨"c", some (List.replicate 32 0), some [], some 4, some [], none⟩

/-- A record that decrypts but whose declared hash [9] differs from the
env0 digest of the plaintext, so only the integrity comparison fails. -/
def attD : AttRecord :=
  ⟨"c", some (List.replicate 32 0), some [], some 4, some [9], none⟩

/-- A fully processable record declaring a contentType unknown to the
env0 MIME helper. -/
def attE : AttRecord :=
  ⟨"a", some (List.replicate 32 0), some [], some 4, some [], some "x"⟩

/-- A GCM oracle whose recovered plaintext is the two ASCII bytes "00",
which hex-decode to the single byte 0x00. -/
def gcm0 : List Nat → List Nat → List Nat → List Nat → Option (List Nat) :=
  fun _ _ _ _ => some [48, 48]

/-- Hex encoding of "v10" followed by 28 zero bytes: a well-formed
encryptedKey value whose remainder after the magic has length 28. -/
def ek0 : String := "76313000000000000000000000000000000000000000000000000000000000"

/-- The byte value hex-decoded from ek0. -/
def key0 : List Nat := [118, 49, 48] ++ List.replicate 28 0

/-- An item that reaches the file write is not one that incremented the
error counter. -/
theorem isErrored_eq_false_of_isWritten {o : ItemOutcome}
    (h : isWritten o = true) : isErrored o = false := by
  cases o <;> simp_all [isWritten, isErrored]

/-- The counters accumulated by the attachment loop count the item
outcomes: counts the items that reached the write, error the missing-file
and caught-exception items, integrity_error the items whose hash
comparison failed. -/
theorem export_foldl_counters (env : Env) (srcFs : String → Option (List Nat))
    (atts : List AttRecord) :
    ∀ st : BatchState,
      ((atts.foldl (exportStep env srcFs) st).counts =
        st.counts + atts.countP fun a => isWritten (processAttachment env srcFs a))
      ∧ ((atts.foldl (exportStep env srcFs) st).error =
        st.error + atts.countP fun a => isErrored (processAttachment env srcFs a))
      ∧ ((atts.foldl (exportStep env srcFs) st).integrity_error =
        st.integrity_error +
          atts.countP fun a => isIntegrityFailed (processAttachment env srcFs a)) := by
  induction atts with
  | nil => intro st; simp
  | cons a atts ih =>
      intro st
      obtain ⟨h1, h2, h3⟩ := ih (exportStep env srcFs st a)
      refine ⟨?_, ?_, ?_⟩
      · rw [List.foldl_cons, h1, List.countP_cons]
        cases hpa : processAttachment env srcFs a <;>
          simp [exportStep, hpa, isWritten] <;> omega
      · rw [List.foldl_cons, h2, List.countP_cons]
        cases hpa : processAttachment env srcFs a <;>
          simp [exportStep, hpa, isErrored] <;> omega
      · rw [List.foldl_cons, h3, List.countP_cons]
        cases hpa : processAttachment env srcFs a with
        | written pth d intf =>
            cases intf <;> simp [exportStep, hpa, isIntegrityFailed] <;> omega
        | notFound => simp [exportStep, hpa, isIntegrityFailed]
        | exc => simp [exportStep, hpa, isIntegrityFailed]

/-- The output directory produced by the attachment loop is the initial
directory with the written files applied in loop order. -/
theorem export_foldl_outFs (env : Env) (srcFs : String → Option (List Nat))
    (atts : List AttRecord) :
    ∀ st : BatchState,
      (atts.foldl (exportStep env srcFs) st).outFs =
        applyWrites (writesOf env srcFs atts) st.outFs := by
  induction atts with
  | nil => intro st; simp [writesOf, applyWrites]
  | cons a atts ih =>
      intro st
      rw [List.foldl_cons, ih]
      cases hpa : processAttachment env srcFs a <;>
        simp [exportStep, hpa, writesOf, applyWrites, List.filterMap_cons,
          List.foldl_cons]

/-- Folding the last-write-wins accumulator from an arbitrary seed equals
folding from none and falling back to the seed. -/
theorem foldl_lastWrite_shift (p : String) (ws : List (String × List Nat)) :
    ∀ init : Option (List Nat),
      ws.foldl (fun acc w => if w.1 = p then some w.2 else acc) init =
        match ws.foldl (fun acc w => if w.1 = p then some w.2 else acc) none with
        | some d => some d
        | none => init := by
  induction ws with
  | nil => intro init; simp
  | cons w ws ih =>
      intro init
      rw [List.foldl_cons, List.foldl_cons, ih (if w.1 = p then some w.2 else init),
        ih (if w.1 = p then some w.2 else none)]
      cases hM : ws.foldl (fun acc w => if w.1 = p then some w.2 else acc) none with
      | some d => simp
      | none => by_cases hw : w.1 = p <;> simp [hw]

/-- Pointwise description of applying a write list: the last write to the
path wins, otherwise the original content shows through. -/
theorem applyWrites_apply (ws : List (String × List Nat)) :
    ∀ (fs : String → Option (List Nat)) (p : String),
      applyWrites ws fs p =
        match lastWrite? ws p with
        | some d => some d
        | none => fs p := by
  induction ws with
  | nil => intro fs p; simp [applyWrites, lastWrite?]
  | cons w ws ih =>
      intro fs p
      have hL : applyWrites (w :: ws) fs p = applyWrites ws (writeFile fs w.1 w.2) p :=
        rfl
      have hR : lastWrite? (w :: ws) p =
          ws.foldl (fun acc w => if w.1 = p then some w.2 else acc)
            (if w.1 = p then some w.2 else none) := rfl
      rw [hL, ih, hR, foldl_lastWrite_shift p ws]
      have hlw : ws.foldl (fun acc w => if w.1 = p then some w.2 else acc) none =
          lastWrite? ws p := rfl
      rw [hlw]
      cases hM : lastWrite? ws p with
      | some d => simp
      | none =>
          by_cases hw : p = w.1
          · simp [writeFile, hw]
          · have hw' : ¬w.1 = p := fun h => hw h.symm
            simp [writeFile, hw, hw']

/-- Applying the same write list twice is the same as applying it once. -/
theorem applyWrites_idem (ws : List (String × List Nat))
    (fs : String → Option (List Nat)) :
    applyWrites ws (applyWrites ws fs) = applyWrites ws fs := by
  funext p
  rw [applyWrites_apply, applyWrites_apply]
  cases hM : lastWrite? ws p with
  | some d => rfl
  | none => rfl

/-- On a present, non-empty, hex-decodable encryptedKey starting with the
"v10" magic, fetch_decryption_key is the GCM post-processing of the GCM
decrypt applied to the fixed-offset slices of the remainder. -/
theorem fetch_decryption_key_eq_gcmPost
    (gcm : List Nat → List Nat → List Nat → List Nat → Option (List Nat))
    (ek : String) (auxKey key : List Nat)
    (hne : ek ≠ "") (hhex : pyFromhex (strBytes ek) = some key)
    (hmagic : key.take 3 = v10Bytes) :
    fetch_decryption_key gcm (some ek) auxKey =
      gcmPost (gcm auxKey ((key.drop 3).take 12)
        (((key.drop 3).drop 12).take ((key.drop 3).length - 28))
        ((key.drop 3).drop ((key.drop 3).length - 16))) := by
  simp only [fetch_decryption_key, if_neg hne, hhex]
  rw [if_neg (not_not_intro hmagic)]

/-- Claim C2, counterexample: on a 25-byte decoded buffer whose bytes at the
GUID offset differ from the DPAPI blob GUID, fetch_aux_key raises
MalformedKeyError — the very same exception class that key-format failures
raise (here: fetch_decryption_key on a non-hex encryptedKey) — so the claimed
distinct UnsupportedSchemeError kind does not exist in the code. -/
theorem fetch_aux_key_guid_mismatch_cex :
    fetch_aux_key Mode.auto [] (fun _ => some []) (fun _ => some [])
        (List.replicate 25 0) = Except.error Err.malformedKey
    ∧ fetch_decryption_key (fun _ _ _ _ => some []) (some "zz") [] =
        Except.error Err.malformedKey :=
  ⟨rfl, rfl⟩

/-- Claim C2 (amended): for every base64-decoded encrypted_key value whose
16 bytes at the fixed GUID offset (bytes 4..19 after the 5-byte magic is
stripped) differ from the DPAPI blob GUID, fetch_aux_key raises
MalformedKeyError — the same exception class used for key-format errors, not
a distinct scheme error — and never crashes, for buffers of any length
(Python slicing is total). -/
theorem fetch_aux_key_guid_mismatch_malformed_key (mode : Mode)
    (argsKey : List Nat) (u m : List Nat → Option (List Nat))
    (decodedKey : List Nat) (hmode : mode ≠ Mode.aux)
    (hguid : ((decodedKey.drop 5).drop 4).take 16 ≠ dpapiBlobGuidBytesLe) :
    fetch_aux_key mode argsKey u m decodedKey = Except.error Err.malformedKey := by
  rw [List.drop_drop] at hguid
  simp [fetch_aux_key, hmode, hguid]

/-- Witness for the amended C2 theorem at a concrete 30-byte buffer. -/
theorem fetch_aux_key_guid_mismatch_malformed_key_witness :
    fetch_aux_key Mode.manual [1] (fun _ => some []) (fun _ => some [1, 2])
        (List.replicate 30 7) = Except.error Err.malformedKey :=
  fetch_aux_key_guid_mismatch_malformed_key Mode.manual [1] _ _ _
    (by decide) (by decide)

/-- Claim C10: fetch_aux_key never compares the first 5 decoded bytes to
"DPAPI": it unconditionally discards them, so a buffer with arbitrary first
5 bytes but the correct GUID at bytes 4..19 of the remainder is processed
identically to a correctly prefixed one, and in auto mode is accepted and
handed to the OS unprotect primitive. -/
theorem fetch_aux_key_ignores_magic (mode : Mode) (argsKey : List Nat)
    (u m : List Nat → Option (List Nat)) (junk rest : List Nat)
    (hmode : mode ≠ Mode.aux) (hlen : junk.length = 5)
    (hguid : (rest.drop 4).take 16 = dpapiBlobGuidBytesLe) :
    fetch_aux_key mode argsKey u m (junk ++ rest) =
        fetch_aux_key mode argsKey u m (auxKeyMagicBytes ++ rest)
    ∧ (mode = Mode.auto →
        fetch_aux_key mode argsKey u m (junk ++ rest) =
          match u rest with
          | some k => Except.ok (some k)
          | none => Except.error Err.unprotectError) := by
  have h1 : (junk ++ rest).drop 5 = rest := List.drop_left' hlen
  have h2 : (auxKeyMagicBytes ++ rest).drop 5 = rest := List.drop_left' rfl
  constructor
  · simp [fetch_aux_key, hmode, h1, h2]
  · intro hm
    subst hm
    simp [fetch_aux_key, h1, hguid]

/-- Witness for C10: junk bytes [9,9,9,9,9] in place of "DPAPI" are accepted
and the unprotect primitive is called on the remainder. -/
theorem fetch_aux_key_ignores_magic_witness :
    ([9, 9, 9, 9, 9] : List Nat).length = 5
    ∧ fetch_aux_key Mode.auto [] (fun _ => some [5]) (fun _ => none)
        ([9, 9, 9, 9, 9] ++ ([0, 0, 0, 0] ++ dpapiBlobGuidBytesLe)) =
      fetch_aux_key Mode.auto [] (fun _ => some [5]) (fun _ => none)
        (auxKeyMagicBytes ++ ([0, 0, 0, 0] ++ dpapiBlobGuidBytesLe)) :=
  ⟨by decide,
   (fetch_aux_key_ignores_magic Mode.auto [] (fun _ => some [5]) (fun _ => none)
      [9, 9, 9, 9, 9] ([0, 0, 0, 0] ++ dpapiBlobGuidBytesLe)
      (by decide) (by decide) (by decide)).1⟩

/-- Claim C6: fetch_decryption_key raises MalformedKeyError when the
hex-decoded encryptedKey does not begin with "v10"; otherwise it strips the
3-byte magic and slices the remainder into nonce = first 12 bytes, tag =
last 16 bytes, ciphertext = the bytes in between, and hands exactly these,
with the auxiliary key, to the authenticated GCM decrypt (whose result is
then post-processed by gcmPost). -/
theorem fetch_decryption_key_envelope_split
    (gcm : List Nat → List Nat → List Nat → List Nat → Option (List Nat))
    (ek : String) (auxKey key : List Nat)
    (hne : ek ≠ "") (hhex : pyFromhex (strBytes ek) = some key) :
    (key.take 3 ≠ v10Bytes →
      fetch_decryption_key gcm (some ek) auxKey = Except.error Err.malformedKey)
    ∧ (key.take 3 = v10Bytes →
        fetch_decryption_key gcm (some ek) auxKey =
          gcmPost (gcm auxKey ((key.drop 3).take 12)
            (((key.drop 3).drop 12).take ((key.drop 3).length - 28))
            ((key.drop 3).drop ((key.drop 3).length - 16)))
        ∧ (28 ≤ (key.drop 3).length →
            ((key.drop 3).take 12).length = 12
            ∧ ((key.drop 3).drop ((key.drop 3).length - 16)).length = 16
            ∧ (key.drop 3).take 12
                ++ ((key.drop 3).drop 12).take ((key.drop 3).length - 28)
                ++ (key.drop 3).drop ((key.drop 3).length - 16)
              = key.drop 3)) := by
  constructor
  · intro hmagic
    simp [fetch_decryption_key, hne, hhex, hmagic]
  · intro hmagic
    constructor
    · exact fetch_decryption_key_eq_gcmPost gcm ek auxKey key hne hhex hmagic
    · intro hlen
      refine ⟨?_, ?_, ?_⟩
      · simp only [List.length_take, List.length_drop] at hlen ⊢
        omega
      · simp only [List.length_drop] at hlen ⊢
        omega
      · have h1 : (key.drop 3).drop ((key.drop 3).length - 16) =
            ((key.drop 3).drop 12).drop ((key.drop 3).length - 28) := by
          simp only [List.drop_drop, List.length_drop] at hlen ⊢
          congr 1
          omega
        rw [h1, List.append_assoc, List.take_append_drop, List.take_append_drop]

/-- Witness for C6 at a well-formed 31-byte decoded key value (magic plus a
28-byte remainder). -/
theorem fetch_decryption_key_envelope_split_witness :
    pyFromhex (strBytes ek0) = some key0
    ∧ fetch_decryption_key gcm0 (some ek0) [] =
        gcmPost (gcm0 [] ((key0.drop 3).take 12)
          (((key0.drop 3).drop 12).take ((key0.drop 3).length - 28))
          ((key0.drop 3).drop ((key0.drop 3).length - 16)))
    ∧ (key0.drop 3).take 12
        ++ ((key0.drop 3).drop 12).take ((key0.drop 3).length - 28)
        ++ (key0.drop 3).drop ((key0.drop 3).length - 16)
      = key0.drop 3 :=
  ⟨by decide,
   ((fetch_decryption_key_envelope_split gcm0 ek0 [] key0 (by decide)
      (by decide)).2 (by decide)).1,
   (((fetch_decryption_key_envelope_split gcm0 ek0 [] key0 (by decide)
      (by decide)).2 (by decide)).2 (by decide)).2.2⟩

/-- Claim C1, counterexample: with a GCM oracle whose recovered plaintext is
the ASCII string "00" (a plaintext real AES-GCM can produce under the right
ciphertext and tag), fetch_decryption_key succeeds and returns the 1-byte
key [0] instead of raising MalformedKeyError on the length mismatch. -/
theorem fetch_decryption_key_length_unchecked_cex :
    fetch_decryption_key gcm0 (some "763130") [] = Except.ok [0]
    ∧ ([0] : List Nat).length ≠ 32 :=
  ⟨rfl, by decide⟩

/-- Claim C1 (amended): fetch_decryption_key returns the hex-decode of the
recovered plaintext with no 32-byte length check — a success path may return
a key of any length; a plaintext that fails hex decoding raises an uncaught
built-in decode error (ValueError), not MalformedKeyError; the only 32-byte
length check in the pipeline is applied by main to the auxiliary key, where
it does raise MalformedKeyError. -/
theorem fetch_decryption_key_no_length_check
    (gcm : List Nat → List Nat → List Nat → List Nat → Option (List Nat))
    (ek : String) (auxKey key p : List Nat)
    (hne : ek ≠ "") (hhex : pyFromhex (strBytes ek) = some key)
    (hmagic : key.take 3 = v10Bytes)
    (hgcm : gcm auxKey ((key.drop 3).take 12)
        (((key.drop 3).drop 12).take ((key.drop 3).length - 28))
        ((key.drop 3).drop ((key.drop 3).length - 16)) = some p) :
    (∀ k, pyFromhex p = some k →
        fetch_decryption_key gcm (some ek) auxKey = Except.ok k)
    ∧ (pyFromhex p = none →
        fetch_decryption_key gcm (some ek) auxKey = Except.error Err.valueError)
    ∧ Err.valueError ≠ Err.malformedKey
    ∧ (∀ k : List Nat, k.length ≠ 32 →
        main_aux_key_check (some k) = Except.error Err.malformedKey) := by
  refine ⟨?_, ?_, by decide, ?_⟩
  · intro k hk
    rw [fetch_decryption_key_eq_gcmPost gcm ek auxKey key hne hhex hmagic, hgcm]
    simp [gcmPost, hk]
  · intro hk
    rw [fetch_decryption_key_eq_gcmPost gcm ek auxKey key hne hhex hmagic, hgcm]
    simp [gcmPost, hk]
  · intro k hk
    simp [main_aux_key_check, hk]

/-- Witness for the amended C1 theorem: the 1-byte decode of plaintext "00"
is returned as the decryption key, while the aux-key check in main rejects
that same 1-byte value. -/
theorem fetch_decryption_key_no_length_check_witness :
    fetch_decryption_key gcm0 (some "763130") [] = Except.ok [0]
    ∧ main_aux_key_check (some [0]) = Except.error Err.malformedKey :=
  ⟨(fetch_decryption_key_no_length_check gcm0 "763130" [] [118, 49, 48] [48, 48]
      (by decide) (by decide) (by decide) rfl).1 [0] (by decide),
   (fetch_decryption_key_no_length_check gcm0 "763130" [] [118, 49, 48] [48, 48]
      (by decide) (by decide) (by decide) rfl).2.2.2 [0] (by decide)⟩

/-- Claim C3: every per-item failure outcome (missing ciphertext file or
caught exception) only increments the errored counter and the loop carries
on — the embedded batch is a total function, so it never raises — and for a
batch where exactly one record has a missing ciphertext file and every other
record reaches the write, the run ends with counts = N - 1 and error = 1. -/
theorem export_attachments_batch_isolation (env : Env)
    (srcFs : String → Option (List Nat)) (front back : List AttRecord)
    (bad : AttRecord) (initFs : String → Option (List Nat))
    (hfront : ∀ a ∈ front, isWritten (processAttachment env srcFs a) = true)
    (hback : ∀ a ∈ back, isWritten (processAttachment env srcFs a) = true)
    (hbad : processAttachment env srcFs bad = ItemOutcome.notFound) :
    (∀ (st : BatchState) (a : AttRecord),
        isErrored (processAttachment env srcFs a) = true →
        exportStep env srcFs st a = { st with error := st.error + 1 })
    ∧ (export_attachments env srcFs (front ++ bad :: back) initFs).counts =
        (front ++ bad :: back).length - 1
    ∧ (export_attachments env srcFs (front ++ bad :: back) initFs).error = 1 := by
  refine ⟨?_, ?_, ?_⟩
  · intro st a ha
    cases hpa : processAttachment env srcFs a <;>
      simp [exportStep, hpa] <;> simp [hpa, isErrored] at ha
  · obtain ⟨h1, _, _⟩ :=
      export_foldl_counters env srcFs (front ++ bad :: back) ⟨0, 0, 0, initFs⟩
    rw [export_attachments, h1, List.countP_append, List.countP_cons]
    rw [List.countP_eq_length.mpr hfront, List.countP_eq_length.mpr hback, hbad]
    simp [isWritten]
  · obtain ⟨_, h2, _⟩ :=
      export_foldl_counters env srcFs (front ++ bad :: back) ⟨0, 0, 0, initFs⟩
    rw [export_attachments, h2, List.countP_append, List.countP_cons]
    have hf0 : (front.countP fun a => isErrored (processAttachment env srcFs a)) = 0 :=
      List.countP_eq_zero.mpr fun a ha => by
        simp [isErrored_eq_false_of_isWritten (hfront a ha)]
    have hb0 : (back.countP fun a => isErrored (processAttachment env srcFs a)) = 0 :=
      List.countP_eq_zero.mpr fun a ha => by
        simp [isErrored_eq_false_of_isWritten (hback a ha)]
    rw [hf0, hb0, hbad]
    simp [isErrored]

/-- Witness for C3: three records of which exactly the middle one has a
missing ciphertext file; the batch ends with counts = 2 and error = 1. -/
theorem export_attachments_batch_isolation_witness :
    (export_attachments env0 src0 [attA, attB, attC] fun _ => none).counts = 2
    ∧ (export_attachments env0 src0 [attA, attB, attC] fun _ => none).error = 1 :=
  have h := export_attachments_batch_isolation env0 src0 [attA] [attC] attB
    (fun _ => none) (by decide) (by decide) (by decide)
  ⟨h.2.1, h.2.2⟩

/-- Claim C8: an attachment that fails only the SHA-256 integrity comparison
is counted both as integrity-failed and as exported: a batch in which every
record reaches the write ends with counts = N, error = 0, and
integrity_error equal to the number of records whose hash comparison
failed. -/
theorem export_attachments_integrity_counted_as_success (env : Env)
    (srcFs : String → Option (List Nat)) (atts : List AttRecord)
    (initFs : String → Option (List Nat))
    (hall : ∀ a ∈ atts, isWritten (processAttachment env srcFs a) = true) :
    (export_attachments env srcFs atts initFs).counts = atts.length
    ∧ (export_attachments env srcFs atts initFs).error = 0
    ∧ (export_attachments env srcFs atts initFs).integrity_error =
        atts.countP fun a => isIntegrityFailed (processAttachment env srcFs a) := by
  obtain ⟨h1, h2, h3⟩ := export_foldl_counters env srcFs atts ⟨0, 0, 0, initFs⟩
  refine ⟨?_, ?_, ?_⟩
  · rw [export_attachments, h1, List.countP_eq_length.mpr hall]
    simp
  · rw [export_attachments, h2]
    have h0 : (atts.countP fun a => isErrored (processAttachment env srcFs a)) = 0 :=
      List.countP_eq_zero.mpr fun a ha => by
        simp [isErrored_eq_false_of_isWritten (hall a ha)]
    rw [h0]
  · rw [export_attachments, h3]
    simp

/-- Witness for C8: a two-record batch whose second record fails only the
integrity comparison ends with counts = 2, error = 0, integrity_error = 1. -/
theorem export_attachments_integrity_counted_as_success_witness :
    (export_attachments env0 src0 [attA, attD] fun _ => none).counts = 2
    ∧ (export_attachments env0 src0 [attA, attD] fun _ => none).error = 0
    ∧ (export_attachments env0 src0 [attA, attD] fun _ => none).integrity_error = 1 :=
  export_attachments_integrity_counted_as_success env0 src0 [attA, attD]
    (fun _ => none) (by decide)

/-- Claim C4: an attachment whose decrypted-then-truncated plaintext hashes
differently from the declared plaintextHash increments the integrity_error
counter (a counter separate from error, which is unchanged), is still
counted as exported, and its plaintext is still written to the output
file; no exception is raised for it (the step is a total function). -/
theorem export_step_integrity_mismatch (env : Env)
    (srcFs : String → Option (List Nat)) (st : BatchState) (att : AttRecord)
    (lk nonce : List Nat) (size : Nat) (encData dec ph : List Nat)
    (hlk : att.localKey = some lk) (hiv : att.iv = some nonce)
    (hsize : att.size = some size) (hfile : srcFs att.path = some encData)
    (hdec : env.aes_256_cbc_decrypt (lk.take 32) nonce encData = some dec)
    (hph : att.plaintextHash = some ph)
    (hmis : ph ≠ env.hash_sha256 ((dec.drop 16).take size)) :
    (exportStep env srcFs st att).integrity_error = st.integrity_error + 1
    ∧ (exportStep env srcFs st att).error = st.error
    ∧ (exportStep env srcFs st att).counts = st.counts + 1
    ∧ (exportStep env srcFs st att).outFs ("attachments/" ++ attFilePath env att) =
        some ((dec.drop 16).take size) := by
  have hpa : processAttachment env srcFs att =
      ItemOutcome.written (attFilePath env att) ((dec.drop 16).take size) true := by
    simp only [processAttachment, hlk, hiv, hsize, hfile, hdec, hph]
    simp [hmis]
  simp [exportStep, hpa, writeFile]

/-- Witness for C4 on the integrity-failing record attD, starting from
zeroed counters and an empty output directory. -/
theorem export_step_integrity_mismatch_witness :
    (exportStep env0 src0 ⟨0, 0, 0, fun _ => none⟩ attD).integrity_error = 1
    ∧ (exportStep env0 src0 ⟨0, 0, 0, fun _ => none⟩ attD).error = 0
    ∧ (exportStep env0 src0 ⟨0, 0, 0, fun _ => none⟩ attD).counts = 1
    ∧ (exportStep env0 src0 ⟨0, 0, 0, fun _ => none⟩ attD).outFs
        ("attachments/" ++ attFilePath env0 attD) = some (List.replicate 4 2) :=
  export_step_integrity_mismatch env0 src0 ⟨0, 0, 0, fun _ => none⟩ attD
    (List.replicate 32 0) [] 4 (List.replicate 20 2) (List.replicate 20 2) [9]
    rfl rfl rfl rfl rfl rfl (by decide)

/-- Claim C5: the bytes written for an attachment record are exactly the
CBC decryption of the ciphertext file, under the key made of the first
32 bytes of the decoded localKey and the decoded iv, with the first 16 bytes
of the decrypted buffer discarded and exactly the next `size` bytes kept
(specAttachmentPlaintext, worded from the specification). -/
theorem export_attachment_written_bytes (env : Env)
    (srcFs : String → Option (List Nat)) (att : AttRecord)
    (lk nonce : List Nat) (size : Nat) (encData ph : List Nat)
    (hlk : att.localKey = some lk) (hiv : att.iv = some nonce)
    (hsize : att.size = some size) (hfile : srcFs att.path = some encData)
    (hph : att.plaintextHash = some ph) :
    writtenData? (processAttachment env srcFs att) =
      specAttachmentPlaintext env lk nonce encData size := by
  simp only [processAttachment, hlk, hiv, hsize, hfile, hph,
    specAttachmentPlaintext]
  cases env.aes_256_cbc_decrypt (lk.take 32) nonce encData <;>
    simp [writtenData?]

/-- Witness for C5 on record attA: both the embedded loop and the
spec-worded formula produce the same four plaintext bytes. -/
theorem export_attachment_written_bytes_witness :
    writtenData? (processAttachment env0 src0 attA) =
      specAttachmentPlaintext env0 (List.replicate 32 0) [] (List.replicate 20 1) 4
    ∧ writtenData? (processAttachment env0 src0 attA) = some (List.replicate 4 1) :=
  ⟨export_attachment_written_bytes env0 src0 attA (List.replicate 32 0) [] 4
      (List.replicate 20 1) [] rfl rfl rfl rfl rfl,
   by decide⟩

/-- Claim C9: when a record declares a contentType that the MIME helper
does not know (guess_extension returns None), the output file path is the
relative path with the four-character literal "None" appended, because the
f-string renders None as "None". -/
theorem export_attachment_unknown_mime_appends_none (env : Env)
    (srcFs : String → Option (List Nat)) (att : AttRecord)
    (lk nonce : List Nat) (size : Nat) (encData dec ph : List Nat) (ct : String)
    (hlk : att.localKey = some lk) (hiv : att.iv = some nonce)
    (hsize : att.size = some size) (hfile : srcFs att.path = some encData)
    (hdec : env.aes_256_cbc_decrypt (lk.take 32) nonce encData = some dec)
    (hph : att.plaintextHash = some ph)
    (hct : att.contentType = some ct) (hext : env.guess_extension ct = none) :
    writtenPath? (processAttachment env srcFs att) = some (att.path ++ "None") := by
  simp [processAttachment, hlk, hiv, hsize, hfile, hdec, hph, writtenPath?,
    attFilePath, hct, mime_to_extension, hext, pyFormatOpt]

/-- Witness for C9 on record attE, whose contentType "x" is unknown to
env0: the output path is "a" ++ "None". -/
theorem export_attachment_unknown_mime_appends_none_witness :
    writtenPath? (processAttachment env0 src0 attE) = some ("a" ++ "None") :=
  export_attachment_unknown_mime_appends_none env0 src0 attE
    (List.replicate 32 0) [] 4 (List.replicate 20 1) (List.replicate 20 1) [] "x"
    rfl rfl rfl rfl rfl rfl rfl rfl

/-- Claim C7: a second run of the attachment pipeline over the same inputs,
starting from the output directory the first run produced, rewrites each
output deterministically with identical bytes and leaves the directory
unchanged; and the unencrypted-database export leaves the output directory
untouched when db.sqlite is already present in it. -/
theorem pipeline_second_run_idempotent (env : Env)
    (srcFs : String → Option (List Nat)) (atts : List AttRecord)
    (fs0 : String → Option (List Nat)) (dbBytes exported : List Nat) :
    (export_attachments env srcFs atts
        (export_attachments env srcFs atts fs0).outFs).outFs =
      (export_attachments env srcFs atts fs0).outFs
    ∧ db_export false (writeFile fs0 "db.sqlite" dbBytes) exported =
        writeFile fs0 "db.sqlite" dbBytes := by
  constructor
  · rw [export_attachments, export_attachments, export_foldl_outFs,
      export_foldl_outFs]
    exact applyWrites_idem _ _
  · simp [db_export, writeFile]

end SignalForensics
